import Mathlib

/-!
Shallow embedding of the IurisLab service (`src/app.py`): text normalization,
prompt construction, the completion gateway, the in-memory session store and
the request handlers, together with theorems checking the specification's
claims about them.

Strings are modelled by Lean `String` (a wrapper around `List Char`), so
Python character slicing corresponds to `List.take` on `.data`.  The two
effectful collaborators — the PDF text extractor and the LLM provider — are
modelled as explicit oracles: an `Archivo` carries the outcome of reading it
(`Except` of the exception message or the extracted text), and the provider
is a function from the user prompt to `Except` of the exception message or
the completion content.  Handler functions additionally return the updated
session store and a trace of `Evento`s recording, in order, each PDF read
attempt, each provider call and each session creation.
-/

namespace IurisLab

/-- Character budget for a judicial ruling (`MAX_CHARS_SENTENCIA = 6000`). -/
def MAX_CHARS_SENTENCIA : Nat := 6000

/-- Batch size cap (`MAX_FILES_LOTE = 10`). -/
def MAX_FILES_LOTE : Nat := 10

/-- Fixed system instruction (`PROMPT_JURIDICO_BASE`). -/
def PROMPT_JURIDICO_BASE : String :=
  "Eres un asistente jurídico especializado en el análisis de resoluciones judiciales españolas. " ++
  "Tu función es extraer información jurídica relevante de forma objetiva y técnica. " ++
  "No emites dictámenes jurídicos ni valoraciones personales. " ++
  "No realizas inferencias no fundamentadas en el texto. " ++
  "Si una información no consta expresamente en la sentencia, debes indicarlo de forma clara. " ++
  "Debes limitar tu respuesta estrictamente a la tarea solicitada en cada consulta."

/-- Truncation of the extracted text (`texto[:MAX_CHARS_SENTENCIA]` in the
handlers; the spec's `normalize`). -/
def normalizar (texto : String) : String :=
  ⟨texto.data.take MAX_CHARS_SENTENCIA⟩

/-- Characters removed by Python `str.strip()`: exactly the characters on
which `str.isspace()` is true — the ASCII whitespace (space, tab, newline,
carriage return, vertical tab, form feed), the separator controls
U+001C–U+001F, next line U+0085, no-break space U+00A0, ogham space mark
U+1680, the Unicode spaces U+2000–U+200A, line separator U+2028, paragraph
separator U+2029, narrow no-break space U+202F, medium mathematical space
U+205F and ideographic space U+3000. -/
def pyEsEspacio (c : Char) : Bool :=
  [' ', '\t', '\n', '\r', '\x0b', '\x0c', '\x1c', '\x1d', '\x1e', '\x1f',
   '\u0085', '\u00a0', '\u1680', '\u2000', '\u2001', '\u2002', '\u2003',
   '\u2004', '\u2005', '\u2006', '\u2007', '\u2008', '\u2009', '\u200a',
   '\u2028', '\u2029', '\u202f', '\u205f', '\u3000'].contains c

/-- Python `str.strip()`: drop leading and trailing whitespace. -/
def pyStrip (s : String) : String :=
  ⟨((s.data.dropWhile pyEsEspacio).reverse.dropWhile pyEsEspacio).reverse⟩

/-- The Python truthiness test `not pregunta or not pregunta.strip()` on the
optional question: `None`, the empty string, or a whitespace-only string. -/
def preguntaEnBlanco : Option String → Bool
  | none => true
  | some p => p == "" || pyStrip p == ""

/-- Instruction part of the `sujetos` prompt, up to the interpolated text. -/
def instrSujetos : String :=
  "\nIdentifica exclusivamente los sujetos intervinientes en la resolución judicial\ny su posición procesal (demandante, demandado, acusado, Ministerio Fiscal,\nAdministración, etc.).\n\nNo incluyas hechos, fundamentos jurídicos, ratio decidendi ni fallo.\n\nSENTENCIA:\n"

/-- Instruction part of the `ratio` prompt, up to the interpolated text. -/
def instrRatioDecidendi : String :=
  "\nIdentifica exclusivamente la ratio decidendi de la sentencia.\n\nLimita tu respuesta únicamente a la razón jurídica fundamental\nque justifica el fallo.\n\nNo incluyas información sobre las partes, hechos ni el fallo.\n\nSENTENCIA:\n"

/-- Instruction part of the `normativa` prompt, up to the interpolated text. -/
def instrNormativa : String :=
  "\nIdentifica exclusivamente la normativa aplicada en la resolución judicial.\n\nIncluye leyes, reglamentos o preceptos citados expresamente.\nNo incluyas hechos, análisis del caso, ratio decidendi ni fallo.\n\nSENTENCIA:\n"

/-- Instruction part of the `fallo` prompt, up to the interpolated text. -/
def instrFallo : String :=
  "\nResume exclusivamente el fallo de la sentencia en una única frase clara y precisa.\n\nNo incluyas fundamentos jurídicos, hechos ni ratio decidendi.\n\nSENTENCIA:\n"

/-- Instruction part of the `consecuencia` prompt, up to the interpolated text. -/
def instrConsecuencia : String :=
  "\nIdentifica exclusivamente la consecuencia jurídica impuesta en la resolución\n(pena, sanción, condena u obligación).\n\nNo incluyas otros aspectos de la sentencia.\n\nSENTENCIA:\n"

/-- The fixed prompt returned for the `otro` category when no question was
provided. -/
def promptSinPregunta : String :=
  "\nHas seleccionado “Otra cuestión jurídica o fáctica”, pero no se ha proporcionado una pregunta.\nIndica: “No se ha proporcionado pregunta”.\n"

/-- Part of the `otro` prompt before the interpolated question. -/
def instrOtroA : String :=
  "\nResponde exclusivamente a la siguiente cuestión jurídica o fáctica,\nbasándote únicamente en el texto de la sentencia proporcionada.\n\nSi la información no consta expresamente, indícalo de forma clara.\n\nCUESTIÓN PLANTEADA:\n"

/-- Part of the `otro` prompt between the interpolated question and text. -/
def instrOtroB : String :=
  "\n\nSENTENCIA:\n"

/-- Instruction part of the fallback prompt, up to the interpolated text. -/
def instrGeneral : String :=
  "\nAnaliza jurídicamente la siguiente sentencia de forma objetiva.\n\nSENTENCIA:\n"

/-- The prompt builder `construir_prompt(tipo, texto, pregunta)`: an if-chain
on the category string, falling back to a generic analysis prompt.  Each
f-string of the source is split at its interpolation points into the named
instruction constants above, so each branch is literal-prefix ++ arguments. -/
def construir_prompt (tipo : String) (texto : String) (pregunta : Option String) : String :=
  if tipo = "sujetos" then instrSujetos ++ texto ++ "\n"
  else if tipo = "ratio" then instrRatioDecidendi ++ texto ++ "\n"
  else if tipo = "normativa" then instrNormativa ++ texto ++ "\n"
  else if tipo = "fallo" then instrFallo ++ texto ++ "\n"
  else if tipo = "consecuencia" then instrConsecuencia ++ texto ++ "\n"
  else if tipo = "otro" then
    if preguntaEnBlanco pregunta then promptSinPregunta
    else instrOtroA ++ pregunta.getD "" ++ instrOtroB ++ texto ++ "\n"
  else instrGeneral ++ texto ++ "\n"

/-- FastAPI `HTTPException(status_code, detail)`, the uniform error shape
raised by the service. -/
structure HTTPException where
  status_code : Nat
  detail : String
deriving DecidableEq, Repr

/-- One entry of a session's history (`registrar_consulta` appends these).
Field order follows the dict literal in the source. -/
structure Consulta where
  timestamp : String
  tipo_analisis : String
  pregunta : Option String
  resultado : String
deriving DecidableEq, Repr

/-- One session record.  Field order follows the dict literal in
`crear_sesion`. -/
structure Sesion where
  created_at : String
  archivo : String
  texto_sentencia : String
  consultas : List Consulta
deriving DecidableEq, Repr

/-- The in-memory session store `SESIONES`, a string-keyed dictionary,
modelled as an insertion-ordered association list with unique keys. -/
abbrev Store := List (String × Sesion)

/-- Dictionary lookup `SESIONES[session_id]` / `session_id in SESIONES`. -/
def lookupSesion : Store → String → Option Sesion
  | [], _ => none
  | kv :: rest, session_id =>
    if kv.1 = session_id then some kv.2 else lookupSesion rest session_id

/-- Dictionary assignment `SESIONES[session_id] = ses`: overwrite in place
when the key exists, otherwise append at the end (Python dicts preserve
insertion order). -/
def insertSesion : Store → String → Sesion → Store
  | [], session_id, ses => [(session_id, ses)]
  | kv :: rest, session_id, ses =>
    if kv.1 = session_id then (session_id, ses) :: rest
    else kv :: insertSesion rest session_id ses

/-- `crear_sesion(texto_sentencia, nombre_archivo)`.  The fresh UUID and the
creation timestamp, produced impurely in the source, are explicit arguments
`session_id` and `now`.  Returns the id together with the updated store. -/
def crear_sesion (sesiones : Store) (texto_sentencia : String) (nombre_archivo : String)
    (session_id : String) (now : String) : String × Store :=
  (session_id, insertSesion sesiones session_id
    { created_at := now
      archivo := nombre_archivo
      texto_sentencia := texto_sentencia
      consultas := [] })

/-- `registrar_consulta(session_id, tipo_analisis, pregunta, resultado)`:
append one record to the history of an existing session; silently do nothing
when the id is unknown.  The record's timestamp is the explicit argument
`now`. -/
def registrar_consulta (sesiones : Store) (session_id : String) (tipo_analisis : String)
    (pregunta : Option String) (resultado : String) (now : String) : Store :=
  match lookupSesion sesiones session_id with
  | some ses =>
      insertSesion sesiones session_id
        { ses with consultas := ses.consultas ++
            [{ timestamp := now
               tipo_analisis := tipo_analisis
               pregunta := pregunta
               resultado := resultado }] }
  | none => sesiones

/-- An uploaded file: its name and the outcome of extracting its text
(`Except` of the exception message raised by `pypdf`, or the extracted
text). -/
structure Archivo where
  filename : String
  contenido : Except String String
deriving Repr

/-- `leer_pdf(file)`: surface any extraction failure as a 400
`HTTPException` with the exception's message appended to a fixed prefix. -/
def leer_pdf (archivo : Archivo) : Except HTTPException String :=
  match archivo.contenido with
  | .ok texto => .ok texto
  | .error e => .error ⟨400, "No se pudo leer el PDF: " ++ e⟩

/-- `llamar_modelo(prompt)`: the provider call
`client.chat.completions.create(...)` plus the extraction of
`resp.choices[0].message.content` is the oracle `api`, applied to the fixed
system instruction and the user prompt; any exception it raises (its message
is the oracle's `.error` payload) is re-raised as a 500 `HTTPException` with
a fixed prefix. -/
def llamar_modelo (api : String → String → Except String String) (prompt : String) :
    Except HTTPException String :=
  match api PROMPT_JURIDICO_BASE prompt with
  | .ok contenido => .ok contenido
  | .error e => .error ⟨500, "Error al llamar al modelo: " ++ e⟩

/-- Observable side effects of a handler, in order: a PDF read attempt, a
provider call, a session creation. -/
inductive Evento where
  | lecturaPdf : String → Evento
  | llamadaModelo : String → Evento
  | sesionCreada : String → Evento
deriving DecidableEq, Repr

/-- Response rendered by the HTML endpoint `/analizar` (the template context
that varies per request). -/
structure RespuestaHTML where
  resultado : String
  session_id : String
deriving DecidableEq, Repr

/-- Response of the JSON endpoint `/analizar_json`. -/
structure RespuestaJSON where
  session_id : String
  tipo_analisis : String
  archivo : String
  resultado : String
deriving DecidableEq, Repr

/-- Response of the batch endpoint `/analizar_lote`. -/
structure RespuestaLote where
  tipo_analisis : String
  numero_sentencias : Nat
  resultados : List (String × String)
deriving DecidableEq, Repr

/-- Response of the session-continuation endpoint `/analizar_sesion`. -/
structure RespuestaSesion where
  session_id : String
  tipo_analisis : String
  archivo : String
  resultado : String
  consultas_previas : Nat
deriving DecidableEq, Repr

/-- The HTML endpoint `/analizar`: read the PDF, truncate, build the prompt,
call the model, then create a session and record the query.  Returns the
response (or error), the updated store and the event trace. -/
def analizar (api : String → String → Except String String) (sesiones : Store)
    (tipo_analisis : String) (archivo : Archivo) (pregunta : Option String)
    (fresh_id : String) (now : String) :
    Except HTTPException RespuestaHTML × Store × List Evento :=
  match leer_pdf archivo with
  | .error e => (.error e, sesiones, [.lecturaPdf archivo.filename])
  | .ok texto =>
    let texto_recortado := normalizar texto
    let prompt := construir_prompt tipo_analisis texto_recortado pregunta
    match llamar_modelo api prompt with
    | .error e => (.error e, sesiones, [.lecturaPdf archivo.filename, .llamadaModelo prompt])
    | .ok resultado =>
      let par := crear_sesion sesiones texto_recortado archivo.filename fresh_id now
      let sesiones2 := registrar_consulta par.2 par.1 tipo_analisis pregunta resultado now
      (.ok { resultado := resultado, session_id := par.1 }, sesiones2,
        [.lecturaPdf archivo.filename, .llamadaModelo prompt, .sesionCreada par.1])

/-- The JSON endpoint `/analizar_json`: same pipeline as `analizar`, JSON
response shape. -/
def analizar_json (api : String → String → Except String String) (sesiones : Store)
    (tipo_analisis : String) (archivo : Archivo) (pregunta : Option String)
    (fresh_id : String) (now : String) :
    Except HTTPException RespuestaJSON × Store × List Evento :=
  match leer_pdf archivo with
  | .error e => (.error e, sesiones, [.lecturaPdf archivo.filename])
  | .ok texto =>
    let texto_recortado := normalizar texto
    let prompt := construir_prompt tipo_analisis texto_recortado pregunta
    match llamar_modelo api prompt with
    | .error e => (.error e, sesiones, [.lecturaPdf archivo.filename, .llamadaModelo prompt])
    | .ok resultado =>
      let par := crear_sesion sesiones texto_recortado archivo.filename fresh_id now
      let sesiones2 := registrar_consulta par.2 par.1 tipo_analisis pregunta resultado now
      (.ok { session_id := par.1
             tipo_analisis := tipo_analisis
             archivo := archivo.filename
             resultado := resultado }, sesiones2,
        [.lecturaPdf archivo.filename, .llamadaModelo prompt, .sesionCreada par.1])

/-- The per-file loop of `/analizar_lote`: read, truncate, build, call, in
input order, aborting the whole batch on the first failure.  No sessions are
created.  Returns the `(filename, resultado)` pairs and the event trace. -/
def procesar_lote (api : String → String → Except String String) (tipo_analisis : String)
    (pregunta : Option String) :
    List Archivo → Except HTTPException (List (String × String)) × List Evento
  | [] => (.ok [], [])
  | archivo :: rest =>
    match leer_pdf archivo with
    | .error e => (.error e, [.lecturaPdf archivo.filename])
    | .ok texto =>
      let prompt := construir_prompt tipo_analisis (normalizar texto) pregunta
      match llamar_modelo api prompt with
      | .error e => (.error e, [.lecturaPdf archivo.filename, .llamadaModelo prompt])
      | .ok res =>
        let par := procesar_lote api tipo_analisis pregunta rest
        ((par.1.map fun rs => (archivo.filename, res) :: rs),
          .lecturaPdf archivo.filename :: .llamadaModelo prompt :: par.2)

/-- The `/analizar_lote` pipeline after the size cap has been passed. -/
def lote_tras_cap (api : String → String → Except String String) (tipo_analisis : String)
    (archivos : List Archivo) (pregunta : Option String) :
    Except HTTPException RespuestaLote × List Evento :=
  match procesar_lote api tipo_analisis pregunta archivos with
  | (.ok resultados, tr) =>
      (.ok { tipo_analisis := tipo_analisis
             numero_sentencias := archivos.length
             resultados := resultados }, tr)
  | (.error e, tr) => (.error e, tr)

/-- The batch endpoint `/analizar_lote`: reject batches over
`MAX_FILES_LOTE` files with a 400 before doing anything else, otherwise
process the files in order. -/
def analizar_lote (api : String → String → Except String String) (tipo_analisis : String)
    (archivos : List Archivo) (pregunta : Option String) :
    Except HTTPException RespuestaLote × List Evento :=
  if archivos.length > MAX_FILES_LOTE then
    (.error ⟨400, "Máximo " ++ toString MAX_FILES_LOTE ++ " archivos por lote."⟩, [])
  else lote_tras_cap api tipo_analisis archivos pregunta

/-- The session-continuation endpoint `/analizar_sesion`: 404 on an unknown
id; otherwise build the prompt from the stored text, call the model, record
the query, and answer with the file name and history length read from the
store after the record was appended (the source reads
`SESIONES[session_id]` again after `registrar_consulta`). -/
def analizar_sesion (api : String → String → Except String String) (sesiones : Store)
    (session_id : String) (tipo_analisis : String) (pregunta : Option String)
    (now : String) : Except HTTPException RespuestaSesion × Store :=
  match lookupSesion sesiones session_id with
  | none => (.error ⟨404, "Sesión no encontrada o caducada."⟩, sesiones)
  | some ses =>
    let prompt := construir_prompt tipo_analisis ses.texto_sentencia pregunta
    match llamar_modelo api prompt with
    | .error e => (.error e, sesiones)
    | .ok resultado =>
      let sesiones2 := registrar_consulta sesiones session_id tipo_analisis pregunta resultado now
      let ses2 := (lookupSesion sesiones2 session_id).getD ses
      (.ok { session_id := session_id
             tipo_analisis := tipo_analisis
             archivo := ses2.archivo
             resultado := resultado
             consultas_previas := ses2.consultas.length }, sesiones2)

/-- The session-inspection endpoint `/sesion/{session_id}`: the full record
or a 404. -/
def ver_sesion (sesiones : Store) (session_id : String) : Except HTTPException Sesion :=
  match lookupSesion sesiones session_id with
  | none => .error ⟨404, "Sesión no encontrada o caducada."⟩
  | some ses => .ok ses

/-- Sequential `registrar_consulta` calls on one session, one per listed
record (each record carries its own timestamp). -/
def registrar_todas (sesiones : Store) (session_id : String) : List Consulta → Store
  | [] => sesiones
  | c :: cs =>
    registrar_todas
      (registrar_consulta sesiones session_id c.tipo_analisis c.pregunta c.resultado c.timestamp)
      session_id cs

/-! ### Store lemmas shared by the claim theorems -/

theorem lookup_insert_self (l : Store) (session_id : String) (ses : Sesion) :
    lookupSesion (insertSesion l session_id ses) session_id = some ses := by
  induction l with
  | nil => simp [insertSesion, lookupSesion]
  | cons kv rest ih =>
    by_cases h : kv.1 = session_id
    · simp [insertSesion, h, lookupSesion]
    · simp [insertSesion, h, lookupSesion, ih]

theorem lookup_insert_ne (l : Store) (session_id otro : String) (ses : Sesion)
    (h : otro ≠ session_id) :
    lookupSesion (insertSesion l session_id ses) otro = lookupSesion l otro := by
  induction l with
  | nil => simp [insertSesion, lookupSesion, Ne.symm h]
  | cons kv rest ih =>
    by_cases hk : kv.1 = session_id
    · simp [insertSesion, hk, lookupSesion, Ne.symm h]
    · simp [insertSesion, hk, lookupSesion, ih]

theorem lookup_registrar_self (sesiones : Store) (session_id : String) (ses : Sesion)
    (tipo : String) (pregunta : Option String) (resultado now : String)
    (h : lookupSesion sesiones session_id = some ses) :
    lookupSesion (registrar_consulta sesiones session_id tipo pregunta resultado now) session_id
      = some { ses with consultas := ses.consultas ++ [⟨now, tipo, pregunta, resultado⟩] } := by
  unfold registrar_consulta
  rw [h]
  exact lookup_insert_self ..

theorem lookup_registrar_ne (sesiones : Store) (session_id otro : String)
    (tipo : String) (pregunta : Option String) (resultado now : String)
    (h : otro ≠ session_id) :
    lookupSesion (registrar_consulta sesiones session_id tipo pregunta resultado now) otro
      = lookupSesion sesiones otro := by
  unfold registrar_consulta
  cases hl : lookupSesion sesiones session_id with
  | none => rfl
  | some ses => exact lookup_insert_ne _ _ _ _ h

theorem lookup_registrar_todas (cs : List Consulta) (sesiones : Store) (session_id : String)
    (ses : Sesion) (h : lookupSesion sesiones session_id = some ses) :
    lookupSesion (registrar_todas sesiones session_id cs) session_id
      = some { ses with consultas := ses.consultas ++ cs } := by
  induction cs generalizing sesiones ses with
  | nil => simpa [registrar_todas] using h
  | cons c cs ih =>
    rw [registrar_todas]
    have h2 := lookup_registrar_self sesiones session_id ses
      c.tipo_analisis c.pregunta c.resultado c.timestamp h
    have hc : (⟨c.timestamp, c.tipo_analisis, c.pregunta, c.resultado⟩ : Consulta) = c := by
      cases c; rfl
    rw [hc] at h2
    have h3 := ih _ _ h2
    simpa [List.append_assoc] using h3

/-! ### Claim theorems -/

/-- C3: normalization `texto[:MAX_CHARS_SENTENCIA]` returns exactly the
first 6000 characters when the input is longer than 6000 characters, the
input unchanged when its length is at most 6000, and empty output on empty
input. -/
theorem C3_normalizar_trunca (texto : String) :
    (MAX_CHARS_SENTENCIA < texto.length →
      (normalizar texto).length = MAX_CHARS_SENTENCIA ∧
      (normalizar texto).data = texto.data.take MAX_CHARS_SENTENCIA) ∧
    (texto.length ≤ MAX_CHARS_SENTENCIA → normalizar texto = texto) ∧
    normalizar "" = "" := by
  refine ⟨fun h => ⟨?_, rfl⟩, fun h => ?_, rfl⟩
  · show (texto.data.take MAX_CHARS_SENTENCIA).length = MAX_CHARS_SENTENCIA
    rw [List.length_take]
    exact Nat.min_eq_left (Nat.le_of_lt h)
  · apply String.ext
    show texto.data.take MAX_CHARS_SENTENCIA = texto.data
    exact List.take_of_length_le h

/-- Concrete input of 6001 characters for the truncation witness. -/
def textoLargo : String := ⟨List.replicate 6001 'a'⟩

/-- Witness for C3 at a 6001-character input and a short input. -/
theorem C3_witness :
    ((normalizar textoLargo).length = MAX_CHARS_SENTENCIA ∧
      (normalizar textoLargo).data = textoLargo.data.take MAX_CHARS_SENTENCIA) ∧
    normalizar "corto" = "corto" :=
  ⟨(C3_normalizar_trunca textoLargo).1
      (by show MAX_CHARS_SENTENCIA < (List.replicate 6001 'a').length
          rw [List.length_replicate]
          norm_num [MAX_CHARS_SENTENCIA]),
    (C3_normalizar_trunca "corto").2.1 (by decide)⟩

/-- C4: a `FREEFORM_QUESTION` (`otro`) prompt with a missing (`None`), empty,
or whitespace-only question is the one fixed instructional prompt
`promptSinPregunta`, the same constant regardless of the text and of which
blank form the question takes. -/
theorem C4_pregunta_en_blanco (texto texto2 p : String) (h : pyStrip p = "") :
    construir_prompt "otro" texto none = promptSinPregunta ∧
    construir_prompt "otro" texto (some "") = promptSinPregunta ∧
    construir_prompt "otro" texto (some p) = promptSinPregunta ∧
    construir_prompt "otro" texto none = construir_prompt "otro" texto2 (some p) := by
  have hp : construir_prompt "otro" texto (some p) = promptSinPregunta := by
    unfold construir_prompt
    rw [if_neg (by decide), if_neg (by decide), if_neg (by decide), if_neg (by decide),
        if_neg (by decide), if_pos rfl, if_pos (by simp [preguntaEnBlanco, h])]
  have hp2 : construir_prompt "otro" texto2 (some p) = promptSinPregunta := by
    unfold construir_prompt
    rw [if_neg (by decide), if_neg (by decide), if_neg (by decide), if_neg (by decide),
        if_neg (by decide), if_pos rfl, if_pos (by simp [preguntaEnBlanco, h])]
  have h1 : construir_prompt "otro" texto none = promptSinPregunta := rfl
  exact ⟨h1, rfl, hp, h1.trans hp2.symm⟩

/-- Witness for C4 at concrete texts and a whitespace-only question. -/
theorem C4_witness :
    construir_prompt "otro" "Texto A" none = promptSinPregunta ∧
    construir_prompt "otro" "Texto A" (some "") = promptSinPregunta ∧
    construir_prompt "otro" "Texto A" (some " \t\n\u00a0\u2003\x1c ") = promptSinPregunta ∧
    construir_prompt "otro" "Texto A" none = construir_prompt "otro" "Texto B" (some " \t\n\u00a0\u2003\x1c ") :=
  C4_pregunta_en_blanco "Texto A" "Texto B" " \t\n\u00a0\u2003\x1c " (by decide)

/-- C5: appending a query for an unknown session id is a silent no-op; the
whole store is returned unchanged (so no session is created either). -/
theorem C5_registrar_consulta_noop (sesiones : Store) (session_id tipo : String)
    (pregunta : Option String) (resultado now : String)
    (h : lookupSesion sesiones session_id = none) :
    registrar_consulta sesiones session_id tipo pregunta resultado now = sesiones := by
  unfold registrar_consulta
  rw [h]

/-- Witness for C5 on the empty store. -/
theorem C5_witness :
    registrar_consulta [] "inexistente" "fallo" none "respuesta" "t1" = [] :=
  C5_registrar_consulta_noop [] "inexistente" "fallo" none "respuesta" "t1" rfl

/-- C7: every failure of the underlying provider call is re-raised by
`llamar_modelo` as one uniform 500 `HTTPException` whose detail is a fixed
prefix followed by the human-readable cause string; no other error shape
reaches the caller. -/
theorem C7_llamar_modelo_uniforme (api : String → String → Except String String)
    (prompt e : String) (h : api PROMPT_JURIDICO_BASE prompt = .error e) :
    llamar_modelo api prompt = .error ⟨500, "Error al llamar al modelo: " ++ e⟩ := by
  unfold llamar_modelo
  rw [h]

/-- A provider oracle that always fails. -/
def apiFalla : String → String → Except String String :=
  fun _ _ => .error "fallo de conexión"

/-- Witness for C7 with an always-failing provider. -/
theorem C7_witness :
    llamar_modelo apiFalla "un prompt" =
      .error ⟨500, "Error al llamar al modelo: " ++ "fallo de conexión"⟩ :=
  C7_llamar_modelo_uniforme apiFalla "un prompt" "fallo de conexión" rfl

/-- C8: `crear_sesion` returns an id under which the store holds a session
whose `texto_sentencia` is the given text, whose `archivo` is the given
filename and whose history is empty; `ver_sesion` (the get endpoint)
succeeds on it. -/
theorem C8_sesion_ida_vuelta (sesiones : Store) (texto nombre session_id now : String) :
    (crear_sesion sesiones texto nombre session_id now).1 = session_id ∧
    ver_sesion (crear_sesion sesiones texto nombre session_id now).2
        ((crear_sesion sesiones texto nombre session_id now).1)
      = .ok { created_at := now, archivo := nombre, texto_sentencia := texto, consultas := [] } := by
  refine ⟨rfl, ?_⟩
  unfold ver_sesion crear_sesion
  rw [lookup_insert_self]

set_option maxRecDepth 40000 in
/-- C1 (counterexample): for the `otro` category with a missing question,
the built prompt is the fixed no-question prompt, and the document text
(here `"TEXTOSENTENCIA"`) does not occur in it at all — so the claim that
every prompt, including this branch, contains the full text verbatim at the
end is false. -/
theorem C1_counterexample :
    construir_prompt "otro" "TEXTOSENTENCIA" none = promptSinPregunta ∧
    ¬ ("TEXTOSENTENCIA".data <:+: (construir_prompt "otro" "TEXTOSENTENCIA" none).data) :=
  ⟨rfl, by decide⟩

/-- C1 (amended): for every category and text — except `otro` with a blank
question — the built prompt ends with the full text verbatim followed by a
single newline. -/
theorem C1_texto_al_final (tipo texto : String) (pregunta : Option String)
    (h : tipo = "otro" → preguntaEnBlanco pregunta = false) :
    ∃ ini, construir_prompt tipo texto pregunta = ini ++ texto ++ "\n" := by
  unfold construir_prompt
  split_ifs with h1 h2 h3 h4 h5 h6 h7
  · exact ⟨instrSujetos, rfl⟩
  · exact ⟨instrRatioDecidendi, rfl⟩
  · exact ⟨instrNormativa, rfl⟩
  · exact ⟨instrFallo, rfl⟩
  · exact ⟨instrConsecuencia, rfl⟩
  · rw [h h6] at h7
    exact absurd h7 (by simp)
  · exact ⟨instrOtroA ++ pregunta.getD "" ++ instrOtroB, rfl⟩
  · exact ⟨instrGeneral, rfl⟩

/-- Witness for the amended C1 at a concrete category and text. -/
theorem C1_witness :
    ∃ ini, construir_prompt "sujetos" "TEXTO" none = ini ++ "TEXTO" ++ "\n" :=
  C1_texto_al_final "sujetos" "TEXTO" none (fun hyp => absurd hyp (by decide))

/-- A session store with one session and an empty history. -/
def sesionDemo : Sesion :=
  { created_at := "2024-01-01T00:00:00Z"
    archivo := "a.pdf"
    texto_sentencia := "texto de la sentencia"
    consultas := [] }

/-- Demo store holding `sesionDemo` under the id `s1`. -/
def sesionesDemo : Store := [("s1", sesionDemo)]

/-- A provider oracle that always answers successfully. -/
def apiDemo : String → String → Except String String :=
  fun _ _ => .ok "Respuesta del modelo."

/-- C2 (counterexample): on a session whose history is empty (0 prior
queries), the session-continuation response reports `consultas_previas = 1`,
because the source computes the count after appending the current query's
record — so the claim that the count equals the history length before the
append is false. -/
theorem C2_counterexample :
    (lookupSesion sesionesDemo "s1").map (fun s => s.consultas.length) = some 0 ∧
    (analizar_sesion apiDemo sesionesDemo "s1" "fallo" none "t9").1
      = .ok { session_id := "s1", tipo_analisis := "fallo", archivo := "a.pdf",
              resultado := "Respuesta del modelo.", consultas_previas := 1 } :=
  ⟨rfl, rfl⟩

/-- C2 (amended): for every existing session, when the provider call
succeeds, the session-continuation response's `consultas_previas` equals the
length of the session's history immediately AFTER the current query's record
is appended, i.e. the prior count plus one, and the returned store is the
prior store with exactly that record appended. -/
theorem C2_consultas_previas (api : String → String → Except String String)
    (sesiones : Store) (session_id tipo : String) (pregunta : Option String)
    (now : String) (ses : Sesion) (resultado : String)
    (h : lookupSesion sesiones session_id = some ses)
    (hapi : api PROMPT_JURIDICO_BASE (construir_prompt tipo ses.texto_sentencia pregunta)
      = .ok resultado) :
    analizar_sesion api sesiones session_id tipo pregunta now
      = (.ok { session_id := session_id, tipo_analisis := tipo, archivo := ses.archivo,
               resultado := resultado, consultas_previas := ses.consultas.length + 1 },
         registrar_consulta sesiones session_id tipo pregunta resultado now) := by
  unfold analizar_sesion llamar_modelo
  rw [h]
  simp only [hapi]
  rw [lookup_registrar_self sesiones session_id ses tipo pregunta resultado now h]
  simp [Option.getD, List.length_append]

/-- Witness for the amended C2 on a concrete one-session store. -/
theorem C2_witness :
    analizar_sesion apiDemo sesionesDemo "s1" "fallo" none "t9"
      = (.ok { session_id := "s1", tipo_analisis := "fallo", archivo := sesionDemo.archivo,
               resultado := "Respuesta del modelo.",
               consultas_previas := sesionDemo.consultas.length + 1 },
         registrar_consulta sesionesDemo "s1" "fallo" none "Respuesta del modelo." "t9") :=
  C2_consultas_previas apiDemo sesionesDemo "s1" "fallo" none "t9" sesionDemo
    "Respuesta del modelo." rfl rfl

/-- C9: appending to an existing session replaces only that session's
history, by exactly one record carrying the passed fields, at the end; every
other session id resolves as before; and starting from an empty history, a
sequence of appends leaves exactly the appended records, in call order. -/
theorem C9_registrar_solo_historial (sesiones : Store) (session_id : String) (ses : Sesion)
    (tipo : String) (pregunta : Option String) (resultado now : String) (cs : List Consulta)
    (h : lookupSesion sesiones session_id = some ses) :
    lookupSesion (registrar_consulta sesiones session_id tipo pregunta resultado now) session_id
      = some { ses with consultas := ses.consultas ++ [⟨now, tipo, pregunta, resultado⟩] } ∧
    (∀ otro, otro ≠ session_id →
      lookupSesion (registrar_consulta sesiones session_id tipo pregunta resultado now) otro
        = lookupSesion sesiones otro) ∧
    (ses.consultas = [] →
      lookupSesion (registrar_todas sesiones session_id cs) session_id
        = some { ses with consultas := cs }) := by
  refine ⟨lookup_registrar_self sesiones session_id ses tipo pregunta resultado now h,
    fun otro ho => lookup_registrar_ne sesiones session_id otro tipo pregunta resultado now ho,
    fun hnil => ?_⟩
  have h3 := lookup_registrar_todas cs sesiones session_id ses h
  rw [hnil] at h3
  simpa using h3

/-- Three concrete history records, in call order. -/
def consultasDemo : List Consulta :=
  [{ timestamp := "t1", tipo_analisis := "fallo", pregunta := none, resultado := "r1" },
   { timestamp := "t2", tipo_analisis := "ratio", pregunta := none, resultado := "r2" },
   { timestamp := "t3", tipo_analisis := "otro", pregunta := some "¿plazo?", resultado := "r3" }]

/-- Witness for C9 on the demo store: one append, frame on another id, and
three sequential appends in call order. -/
theorem C9_witness :
    lookupSesion (registrar_consulta sesionesDemo "s1" "fallo" none "r1" "t1") "s1"
      = some { sesionDemo with consultas := sesionDemo.consultas ++ [⟨"t1", "fallo", none, "r1"⟩] } ∧
    lookupSesion (registrar_consulta sesionesDemo "s1" "fallo" none "r1" "t1") "s2"
      = lookupSesion sesionesDemo "s2" ∧
    lookupSesion (registrar_todas sesionesDemo "s1" consultasDemo) "s1"
      = some { sesionDemo with consultas := consultasDemo } :=
  ⟨(C9_registrar_solo_historial sesionesDemo "s1" sesionDemo "fallo" none "r1" "t1"
      consultasDemo rfl).1,
   (C9_registrar_solo_historial sesionesDemo "s1" sesionDemo "fallo" none "r1" "t1"
      consultasDemo rfl).2.1 "s2" (by decide),
   (C9_registrar_solo_historial sesionesDemo "s1" sesionDemo "fallo" none "r1" "t1"
      consultasDemo rfl).2.2 rfl⟩

/-- C6: a batch of more than `MAX_FILES_LOTE` files fails with the 400
`HTTPException` of the cap, with an empty event trace (no PDF read, no
provider call) and no answers, for every provider oracle; a batch of at most
`MAX_FILES_LOTE` files passes the cap check and is handed unchanged to the
per-file processing. -/
theorem C6_cap_lote :
    (∀ (api : String → String → Except String String) (tipo : String)
        (pregunta : Option String) (archivos : List Archivo),
      MAX_FILES_LOTE < archivos.length →
      analizar_lote api tipo archivos pregunta
        = (.error ⟨400, "Máximo " ++ toString MAX_FILES_LOTE ++ " archivos por lote."⟩, [])) ∧
    (∀ (api : String → String → Except String String) (tipo : String)
        (pregunta : Option String) (archivos : List Archivo),
      archivos.length ≤ MAX_FILES_LOTE →
      analizar_lote api tipo archivos pregunta = lote_tras_cap api tipo archivos pregunta) := by
  constructor
  · intro api tipo pregunta archivos h
    unfold analizar_lote
    rw [if_pos h]
  · intro api tipo pregunta archivos h
    unfold analizar_lote
    rw [if_neg (Nat.not_lt.mpr h)]

/-- A concrete readable file for the witnesses. -/
def archivoDemo : Archivo := { filename := "a.pdf", contenido := .ok "texto de la sentencia" }

/-- Eleven files, one over the batch cap. -/
def archivosOnce : List Archivo := List.replicate 11 archivoDemo

/-- Witness for C6: an 11-file batch is rejected with an empty trace, and a
1-file batch reaches the per-file processing. -/
theorem C6_witness :
    analizar_lote apiDemo "fallo" archivosOnce none
      = (.error ⟨400, "Máximo " ++ toString MAX_FILES_LOTE ++ " archivos por lote."⟩, []) ∧
    analizar_lote apiDemo "fallo" [archivoDemo] none
      = lote_tras_cap apiDemo "fallo" [archivoDemo] none :=
  ⟨C6_cap_lote.1 apiDemo "fallo" none archivosOnce (by decide),
   C6_cap_lote.2 apiDemo "fallo" none [archivoDemo] (by decide)⟩

/-- C10: in the single-document handlers (`/analizar` and `/analizar_json`),
the PDF read and the model call both precede session creation: if the PDF is
unreadable the handler returns the 400 error with the store unchanged and
only a PDF-read event; if the provider call fails it returns the 500 error
with the store unchanged and no session-creation event; and when the call
succeeds the returned store holds the newly created session (with its single
recorded query) under the fresh id. -/
theorem C10_sesion_solo_con_exito (api : String → String → Except String String)
    (sesiones : Store) (tipo : String) (archivo : Archivo) (pregunta : Option String)
    (fresh_id now : String) :
    (∀ e, archivo.contenido = .error e →
      analizar api sesiones tipo archivo pregunta fresh_id now
        = (.error ⟨400, "No se pudo leer el PDF: " ++ e⟩, sesiones,
           [.lecturaPdf archivo.filename]) ∧
      analizar_json api sesiones tipo archivo pregunta fresh_id now
        = (.error ⟨400, "No se pudo leer el PDF: " ++ e⟩, sesiones,
           [.lecturaPdf archivo.filename])) ∧
    (∀ texto e, archivo.contenido = .ok texto →
      api PROMPT_JURIDICO_BASE (construir_prompt tipo (normalizar texto) pregunta) = .error e →
      analizar api sesiones tipo archivo pregunta fresh_id now
        = (.error ⟨500, "Error al llamar al modelo: " ++ e⟩, sesiones,
           [.lecturaPdf archivo.filename,
            .llamadaModelo (construir_prompt tipo (normalizar texto) pregunta)]) ∧
      analizar_json api sesiones tipo archivo pregunta fresh_id now
        = (.error ⟨500, "Error al llamar al modelo: " ++ e⟩, sesiones,
           [.lecturaPdf archivo.filename,
            .llamadaModelo (construir_prompt tipo (normalizar texto) pregunta)])) ∧
    (∀ texto resultado, archivo.contenido = .ok texto →
      api PROMPT_JURIDICO_BASE (construir_prompt tipo (normalizar texto) pregunta)
        = .ok resultado →
      lookupSesion (analizar api sesiones tipo archivo pregunta fresh_id now).2.1 fresh_id
        = some { created_at := now, archivo := archivo.filename,
                 texto_sentencia := normalizar texto,
                 consultas := [⟨now, tipo, pregunta, resultado⟩] } ∧
      lookupSesion (analizar_json api sesiones tipo archivo pregunta fresh_id now).2.1 fresh_id
        = some { created_at := now, archivo := archivo.filename,
                 texto_sentencia := normalizar texto,
                 consultas := [⟨now, tipo, pregunta, resultado⟩] }) := by
  refine ⟨fun e he => ?_, fun texto e he hapi => ?_, fun texto resultado he hapi => ?_⟩
  · unfold analizar analizar_json leer_pdf
    rw [he]
    exact ⟨rfl, rfl⟩
  · unfold analizar analizar_json leer_pdf llamar_modelo
    rw [he]
    simp [hapi]
  · unfold analizar analizar_json leer_pdf llamar_modelo
    rw [he]
    simp only [hapi]
    unfold crear_sesion
    constructor
    · rw [lookup_registrar_self _ _ _ _ _ _ _ (lookup_insert_self sesiones fresh_id _)]
      simp
    · rw [lookup_registrar_self _ _ _ _ _ _ _ (lookup_insert_self sesiones fresh_id _)]
      simp

/-- A concrete unreadable file for the C10 witness. -/
def archivoMalo : Archivo := { filename := "malo.pdf", contenido := .error "bytes corruptos" }

/-- Witness for C10: PDF failure and provider failure leave the empty store
unchanged; a successful run creates the session with one recorded query. -/
theorem C10_witness :
    (analizar apiDemo [] "fallo" archivoMalo none "id1" "t1"
      = (.error ⟨400, "No se pudo leer el PDF: " ++ "bytes corruptos"⟩, [],
         [.lecturaPdf "malo.pdf"]) ∧
     analizar_json apiDemo [] "fallo" archivoMalo none "id1" "t1"
      = (.error ⟨400, "No se pudo leer el PDF: " ++ "bytes corruptos"⟩, [],
         [.lecturaPdf "malo.pdf"])) ∧
    (analizar apiFalla [] "fallo" archivoDemo none "id1" "t1"
      = (.error ⟨500, "Error al llamar al modelo: " ++ "fallo de conexión"⟩, [],
         [.lecturaPdf "a.pdf",
          .llamadaModelo (construir_prompt "fallo" (normalizar "texto de la sentencia") none)]) ∧
     analizar_json apiFalla [] "fallo" archivoDemo none "id1" "t1"
      = (.error ⟨500, "Error al llamar al modelo: " ++ "fallo de conexión"⟩, [],
         [.lecturaPdf "a.pdf",
          .llamadaModelo (construir_prompt "fallo" (normalizar "texto de la sentencia") none)])) ∧
    (lookupSesion (analizar apiDemo [] "fallo" archivoDemo none "id1" "t1").2.1 "id1"
      = some { created_at := "t1", archivo := "a.pdf",
               texto_sentencia := normalizar "texto de la sentencia",
               consultas := [⟨"t1", "fallo", none, "Respuesta del modelo."⟩] } ∧
     lookupSesion (analizar_json apiDemo [] "fallo" archivoDemo none "id1" "t1").2.1 "id1"
      = some { created_at := "t1", archivo := "a.pdf",
               texto_sentencia := normalizar "texto de la sentencia",
               consultas := [⟨"t1", "fallo", none, "Respuesta del modelo."⟩] }) :=
  ⟨(C10_sesion_solo_con_exito apiDemo [] "fallo" archivoMalo none "id1" "t1").1
      "bytes corruptos" rfl,
   (C10_sesion_solo_con_exito apiFalla [] "fallo" archivoDemo none "id1" "t1").2.1
      "texto de la sentencia" "fallo de conexión" rfl rfl,
   (C10_sesion_solo_con_exito apiDemo [] "fallo" archivoDemo none "id1" "t1").2.2
      "texto de la sentencia" "Respuesta del modelo." rfl rfl⟩

end IurisLab
